import Mathlib

/-!
Shallow embedding of the `advanced_switches` Home Assistant custom component
(`custom_components/advanced_switches/__init__.py`, `button.py`, `config_flow.py`),
restricted to the controller logic the specification's claims are about.

Modelling conventions:
* Python `float` power/energy values are modelled as `ℚ`; `round(x, d)` is
  `roundTo d x` (round half away from zero ties do not occur at any input used
  in a proof below, so the tie-breaking convention is irrelevant).
* `datetime` instants are `ℚ` (seconds); `date`s are `ℤ` (day numbers);
  `datetime.now()` / `date.today()` become explicit `now : ℚ` / `today : ℤ`
  arguments, passed at each call site where the source calls them.
* `async_call_later` handles are modelled by a numeric id drawn from the
  ghost counter `scheduled_count`, which increments exactly when the source
  actually schedules a callback; cancelling clears the stored handle.
* Entity notification (`_notify_entities`) only calls external listeners and
  mutates no controller field, so it is omitted.
-/

/-- States of the activity state machine (`STATE_OFF` / `STATE_STANDBY` /
`STATE_ACTIVE` in `const.py`; `STATE_BLOCKED` is a derived display value,
not a stored state). -/
inductive AState
  | off
  | standby
  | active
deriving DecidableEq, Repr

/-- Operating mode (`MODE_SIMPLE` / `MODE_STANDBY` in `const.py`). -/
inductive Mode
  | simple
  | standby
deriving DecidableEq, Repr

/-- `SESSION_HISTORY_SIZE` from `const.py`. -/
def SESSION_HISTORY_SIZE : ℕ := 10

/-- A committed session history record (the dict built in `_end_session`). -/
structure HistRec where
  start : ℚ
  endT : ℚ
  duration_s : ℤ
  energy_kwh : ℚ
  peak_power_w : ℚ
deriving DecidableEq, Repr

/-- Python `round(x, d)`: round to `d` decimal places. -/
def roundTo (d : ℕ) (x : ℚ) : ℚ := ((round (x * 10 ^ d) : ℤ) : ℚ) / 10 ^ d

/-- Python `int(q)` on a float: truncation toward zero. -/
def pyTrunc (q : ℚ) : ℤ := if 0 ≤ q then ⌊q⌋ else ⌈q⌉

/-- The mutable fields of `AdvancedSwitchController`, together with its
    (immutable after `__init__`) configuration. Field names follow the
    source attributes without the leading underscore. -/
structure Ctrl where
  -- configuration
  mode : Mode
  active_threshold_w : ℚ
  standby_threshold_w : ℚ
  on_delay_s : ℚ
  off_delay_s : ℚ
  active_standby_delay_s : ℚ
  session_end_grace_s : ℚ
  min_duration_s : ℚ
  power_smoothing_s : ℚ
  auto_off_enabled : Bool
  auto_off_minutes : ℚ
  schedule_blocked : Bool
  -- power smoothing buffer: (timestamp, power), oldest first
  power_readings : List (ℚ × ℚ)
  -- current state
  state : AState
  session_start_time : Option ℚ
  session_start_energy : Option ℚ
  current_energy : Option ℚ
  current_power : ℚ
  power_available : Bool
  energy_available : Bool
  session_peak_power : ℚ
  -- timers: stored handle id (ghost) and, for documentation, the delay used
  pending_on_timer : Option (ℕ × ℚ)
  pending_target_state : Option AState
  pending_off_timer : Option (ℕ × ℚ)
  pending_session_end : Bool
  auto_off_timer : Option ℕ
  auto_off_at : Option ℚ
  scheduled_count : ℕ
  -- persistent statistics
  sessions_total : ℤ
  sessions_today : ℤ
  energy_today_kwh : ℚ
  energy_total_kwh : ℚ
  last_session_duration_s : Option ℤ
  last_session_energy_kwh : Option ℚ
  last_session_peak_power_w : Option ℚ
  today_date : ℤ
  state_restored : Bool
  session_history : List HistRec
  avg_session_duration_s : Option ℚ
  avg_session_energy_kwh : Option ℚ
deriving DecidableEq, Repr

namespace Ctrl

/-- `_calculate_averages`. -/
def calculate_averages (c : Ctrl) : Ctrl :=
  if c.session_history = [] then
    { c with avg_session_duration_s := none, avg_session_energy_kwh := none }
  else
    let total_duration : ℤ := (c.session_history.map (fun s => s.duration_s)).sum
    let total_energy : ℚ := (c.session_history.map (fun s => s.energy_kwh)).sum
    let count : ℕ := c.session_history.length
    { c with
      avg_session_duration_s := some (roundTo 1 ((total_duration : ℚ) / count)),
      avg_session_energy_kwh := some (roundTo 3 (total_energy / count)) }

/-- `_reset_session`. -/
def reset_session (c : Ctrl) : Ctrl :=
  { c with
    session_start_time := none,
    session_start_energy := none,
    session_peak_power := 0,
    pending_session_end := false,
    state := .off }

/-- `_cancel_auto_off_timer`. -/
def cancel_auto_off_timer (c : Ctrl) : Ctrl :=
  if c.auto_off_timer.isSome then
    { c with auto_off_timer := none, auto_off_at := none }
  else c

/-- `_start_auto_off_timer`. -/
def start_auto_off_timer (now : ℚ) (c : Ctrl) : Ctrl :=
  if ¬ c.auto_off_enabled then c
  else if c.auto_off_timer.isSome then c
  else
    { c with
      auto_off_at := some (now + c.auto_off_minutes * 60),
      auto_off_timer := some c.scheduled_count,
      scheduled_count := c.scheduled_count + 1 }

/-- `_cancel_on_timer`. -/
def cancel_on_timer (c : Ctrl) : Ctrl :=
  if c.pending_on_timer.isSome then
    { c with pending_on_timer := none, pending_target_state := none }
  else c

/-- The delay selection inside `_start_on_timer` when no explicit delay is
    passed (no caller in the source passes one). -/
def on_timer_delay (c : Ctrl) (target_state : AState) : ℚ :=
  if (c.state = .active ∨ c.state = .standby) ∧
      (target_state = .active ∨ target_state = .standby) then
    c.active_standby_delay_s
  else c.on_delay_s

/-- `_start_on_timer`: same pending target is a no-op; a different pending
    target is cancelled and replaced; otherwise schedules the callback. -/
def start_on_timer (target_state : AState) (c0 : Ctrl) : Ctrl :=
  if c0.pending_on_timer.isSome ∧ c0.pending_target_state = some target_state then
    c0
  else
    let c := cancel_on_timer c0
    { c with
      pending_target_state := some target_state,
      pending_on_timer := some (c.scheduled_count, on_timer_delay c target_state),
      scheduled_count := c.scheduled_count + 1 }

/-- `_cancel_off_timer`. -/
def cancel_off_timer (c : Ctrl) : Ctrl :=
  if c.pending_off_timer.isSome then
    { c with pending_off_timer := none, pending_session_end := false }
  else c

/-- `_start_off_timer`: refuses to restart while one is pending. -/
def start_off_timer (use_grace : Bool) (c : Ctrl) : Ctrl :=
  if c.pending_off_timer.isSome then c
  else
    let delay := if use_grace then c.session_end_grace_s else c.off_delay_s
    { c with
      pending_session_end := true,
      pending_off_timer := some (c.scheduled_count, delay),
      scheduled_count := c.scheduled_count + 1 }

/-- `_start_session`. -/
def start_session (now : ℚ) (c : Ctrl) : Ctrl :=
  { c with
    session_start_time := some now,
    session_start_energy := c.current_energy,
    session_peak_power := c.current_power }

/-- `_transition_to`. -/
def transition_to (now : ℚ) (new_state : AState) (c : Ctrl) : Ctrl :=
  if new_state = c.state then c
  else
    let c :=
      if c.state = .off ∧ (new_state = .standby ∨ new_state = .active) then
        start_session now c
      else c
    { c with state := new_state }

/-- `_end_session`. -/
def end_session (now : ℚ) (c0 : Ctrl) : Ctrl :=
  let c := cancel_auto_off_timer c0
  match c.session_start_time with
  | none => { c with state := .off }
  | some startT =>
    let duration_s : ℚ := now - startT
    if duration_s < c.min_duration_s then
      reset_session c
    else
      let energy_kwh : ℚ :=
        match c.current_energy, c.session_start_energy with
        | some cur, some st => max 0 (cur - st)
        | _, _ => 0
      let last_dur : ℤ := pyTrunc duration_s
      let last_energy : ℚ := roundTo 3 energy_kwh
      let last_peak : ℚ := roundTo 1 c.session_peak_power
      let record : HistRec :=
        { start := startT, endT := now, duration_s := last_dur,
          energy_kwh := last_energy, peak_power_w := last_peak }
      let c :=
        { c with
          sessions_total := c.sessions_total + 1,
          sessions_today := c.sessions_today + 1,
          energy_today_kwh := c.energy_today_kwh + energy_kwh,
          energy_total_kwh := c.energy_total_kwh + energy_kwh,
          last_session_duration_s := some last_dur,
          last_session_energy_kwh := some last_energy,
          last_session_peak_power_w := some last_peak,
          session_history := (record :: c.session_history).take SESSION_HISTORY_SIZE }
      reset_session c.calculate_averages

/-- `_check_day_reset`. -/
def check_day_reset (today : ℤ) (c : Ctrl) : Ctrl :=
  if c.today_date ≠ today then
    { c with sessions_today := 0, energy_today_kwh := 0, today_date := today }
  else c

end Ctrl

/-- The `while self._power_readings and self._power_readings[0][0] < cutoff:
popleft()` loop shared by `_add_power_reading` and
`_calculate_smoothed_power`: drop leading readings older than the cutoff. -/
def evictOld (cutoff : ℚ) : List (ℚ × ℚ) → List (ℚ × ℚ)
  | [] => []
  | r :: rest => if r.1 < cutoff then evictOld cutoff rest else r :: rest

namespace Ctrl

/-- `_add_power_reading`. -/
def add_power_reading (now power : ℚ) (c : Ctrl) : Ctrl :=
  let readings := c.power_readings ++ [(now, power)]
  let cutoff := now - c.power_smoothing_s
  { c with power_readings := evictOld cutoff readings }

/-- `_calculate_smoothed_power`: evicts stale readings (a mutation of the
    deque), then returns the 2-decimal-rounded mean, or the raw current
    power when the window is empty. -/
def calculate_smoothed_power (now : ℚ) (c : Ctrl) : Ctrl × ℚ :=
  if c.power_readings = [] then (c, c.current_power)
  else
    let cutoff := now - c.power_smoothing_s
    let readings := evictOld cutoff c.power_readings
    let c := { c with power_readings := readings }
    if readings = [] then (c, c.current_power)
    else
      let total : ℚ := (readings.map (fun r => r.2)).sum
      (c, roundTo 2 (total / readings.length))

/-- `_handle_simple_mode`. In simple mode the `STANDBY` branch of the
    source's if/elif chain does not exist, so that state is left untouched. -/
def handle_simple_mode (now power : ℚ) (initial : Bool) (c : Ctrl) : Ctrl :=
  match c.state with
  | .off =>
    if power ≥ c.active_threshold_w then
      if initial then c.transition_to now .active else c.start_on_timer .active
    else c.cancel_on_timer
  | .active =>
    if power < c.active_threshold_w then c.start_off_timer false
    else c.cancel_off_timer
  | .standby => c

/-- `_handle_standby_mode`. -/
def handle_standby_mode (now power : ℚ) (initial : Bool) (c : Ctrl) : Ctrl :=
  match c.state with
  | .off =>
    if power ≥ c.active_threshold_w then
      if initial then c.transition_to now .active else c.start_on_timer .active
    else if power ≥ c.standby_threshold_w then
      if initial then c.transition_to now .standby else c.start_on_timer .standby
    else c.cancel_on_timer
  | .standby =>
    if power ≥ c.active_threshold_w then
      (c.cancel_off_timer).transition_to now .active
    else if power < c.standby_threshold_w then
      c.start_off_timer true
    else if ¬ c.pending_session_end then
      c.cancel_off_timer
    else c
  | .active =>
    if power < c.standby_threshold_w then
      (c.start_off_timer true).cancel_on_timer
    else if power < c.active_threshold_w then
      let c := if ¬ c.pending_session_end then c.cancel_off_timer else c
      c.start_on_timer .standby
    else
      let c := if c.pending_session_end then c.cancel_off_timer else c
      c.cancel_on_timer

/-- `_handle_power_change`: skipped entirely while schedule-blocked,
    otherwise runs the day-rollover check and dispatches per mode. -/
def handle_power_change (now : ℚ) (today : ℤ) (power : ℚ) (initial : Bool)
    (c : Ctrl) : Ctrl :=
  if c.schedule_blocked then c
  else
    let c := c.check_day_reset today
    match c.mode with
    | .simple => c.handle_simple_mode now power initial
    | .standby => c.handle_standby_mode now power initial

/-- The prefix of the power branch of `_on_state_changed`: record the raw
    value, append it to the smoothing buffer, and track the session peak
    from the raw (not smoothed) power. -/
def pre_sample (now raw : ℚ) (c : Ctrl) : Ctrl :=
  let c := { c with power_available := true, current_power := raw }
  let c := c.add_power_reading now raw
  if c.state ≠ .off ∧ raw > c.session_peak_power then
    { c with session_peak_power := raw }
  else c

/-- The smoothed value that the power branch of `_on_state_changed` feeds
    to `_handle_power_change`. -/
def smoothed_input (now raw : ℚ) (c : Ctrl) : ℚ :=
  ((c.pre_sample now raw).calculate_smoothed_power now).2

/-- The full power branch of `_on_state_changed` for a parsable value. -/
def on_power_sample (now : ℚ) (today : ℤ) (raw : ℚ) (c : Ctrl) : Ctrl :=
  let c := c.pre_sample now raw
  let p := c.calculate_smoothed_power now
  p.1.handle_power_change now today p.2 false

/-- The switch branch of `_on_state_changed`: the physical switch reporting
    on arms the auto-off timer, anything else disarms it. -/
def on_switch_state_changed (now : ℚ) (is_on : Bool) (c : Ctrl) : Ctrl :=
  if is_on then c.start_auto_off_timer now else c.cancel_auto_off_timer

end Ctrl

/-- Events serialized onto the controller's single event loop, as far as the
    claims need them: a parsable power-sensor update, and the expiry of the
    pending on / off-grace timer callbacks registered in `_start_on_timer`
    and `_start_off_timer`. -/
inductive Event
  | power_sample (now : ℚ) (today : ℤ) (raw : ℚ)
  | on_timer_expiry (now : ℚ)
  | off_timer_expiry (now : ℚ)
deriving DecidableEq, Repr

/-- One event-loop step. A timer expiry event only exists while the
    corresponding callback is scheduled; the callback first clears the
    pending slot (exactly as `on_timer_callback` / `off_timer_callback` do)
    and then transitions / ends the session. -/
def step (e : Event) (c : Ctrl) : Ctrl :=
  match e with
  | .power_sample now today raw => c.on_power_sample now today raw
  | .on_timer_expiry now =>
    match c.pending_on_timer, c.pending_target_state with
    | some _, some target =>
      Ctrl.transition_to now target
        { c with pending_on_timer := none, pending_target_state := none }
    | _, _ => c
  | .off_timer_expiry now =>
    match c.pending_off_timer with
    | some _ =>
      Ctrl.end_session now
        { c with pending_off_timer := none, pending_session_end := false }
    | none => c

/-- Run a sequence of events through the loop. -/
def run (es : List Event) (c : Ctrl) : Ctrl :=
  es.foldl (fun c e => step e c) c

/-!
## Persistence

The persisted record is a flat dict of primitive values. A `PVal` is one
stored value; a key can also be absent from the record, which is modelled by
`Option PVal` (`Option.none` = key absent, `PVal.noneV` = key present with
Python `None`). ISO-8601 date / datetime strings that parse are modelled as
`dateV` / `dtV` carrying the parsed value; `strV` models any other string
(decimal strings, which Python `int`/`float` would parse, are not
distinguished — no claim depends on them). -/
inductive PVal
  | noneV
  | intV (n : ℤ)
  | ratV (q : ℚ)
  | strV (s : String)
  | boolV (b : Bool)
  | dateV (d : ℤ)
  | dtV (t : ℚ)
  | listV (l : List HistRec)
deriving DecidableEq, Repr

/-- Python truthiness of a stored value. -/
def PVal.truthy : PVal → Bool
  | .noneV => false
  | .intV n => n ≠ 0
  | .ratV q => q ≠ 0
  | .strV s => s ≠ ""
  | .boolV b => b
  | .dateV _ => true
  | .dtV _ => true
  | .listV l => l ≠ []

/-- Python `int(v)`: succeeds on ints, floats (truncating toward zero) and
    bools; raises `TypeError`/`ValueError` on `None`, non-numeric strings
    and other objects. -/
def pyInt : PVal → Except Unit ℤ
  | .intV n => .ok n
  | .ratV q => .ok (pyTrunc q)
  | .boolV b => .ok (if b then 1 else 0)
  | _ => .error ()

/-- Python `float(v)`: succeeds on ints, floats and bools; raises on
    `None`, non-numeric strings and other objects. -/
def pyFloat : PVal → Except Unit ℚ
  | .intV n => .ok (n : ℚ)
  | .ratV q => .ok q
  | .boolV b => .ok (if b then 1 else 0)
  | _ => .error ()

/-- `data.get(key)`: `None` when the key is absent. -/
def pGet (v : Option PVal) : PVal := v.getD .noneV

/-- `data.get(key, dflt)`. -/
def pGetD (v : Option PVal) (dflt : PVal) : PVal := v.getD dflt

/-- The flat persisted record handled by `get_persistence_data` /
    `restore_state`, one field per `ATTR_*` key of `const.py`. -/
structure PRecord where
  sessions_total : Option PVal := none
  sessions_today : Option PVal := none
  energy_today_kwh : Option PVal := none
  energy_total_kwh : Option PVal := none
  last_session_duration_s : Option PVal := none
  last_session_energy_kwh : Option PVal := none
  last_session_peak_power_w : Option PVal := none
  today_date : Option PVal := none
  session_active : Option PVal := none
  session_start_time : Option PVal := none
  session_start_energy : Option PVal := none
  session_peak_power : Option PVal := none
  session_history : Option PVal := none
  avg_session_duration_s : Option PVal := none
  avg_session_energy_kwh : Option PVal := none
deriving DecidableEq, Repr

/-- The outcome of `restore_state`: Python exceptions propagate out of the
    method, leaving every assignment made before the raising statement in
    place, so the outcome carries a raised flag together with the
    (possibly partially mutated) controller. -/
structure RestoreOutcome where
  raised : Bool
  ctrl : Ctrl
deriving DecidableEq, Repr

/-- Statement sequencing under exception propagation. -/
def RestoreOutcome.andThen (r : RestoreOutcome) (f : Ctrl → RestoreOutcome) :
    RestoreOutcome :=
  if r.raised then r else f r.ctrl

/-- `self.x = int(data.get(KEY, 0))`. -/
def restoreIntD (v : Option PVal) (set : Ctrl → ℤ → Ctrl) (c : Ctrl) :
    RestoreOutcome :=
  match pyInt (pGetD v (.intV 0)) with
  | .ok n => ⟨false, set c n⟩
  | .error _ => ⟨true, c⟩

/-- `self.x = float(data.get(KEY, 0.0))`. -/
def restoreFloatD (v : Option PVal) (set : Ctrl → ℚ → Ctrl) (c : Ctrl) :
    RestoreOutcome :=
  match pyFloat (pGetD v (.ratV 0)) with
  | .ok q => ⟨false, set c q⟩
  | .error _ => ⟨true, c⟩

/-- `if data.get(KEY) is not None: self.x = int(data[KEY])`. -/
def restoreOptInt (v : Option PVal) (set : Ctrl → ℤ → Ctrl) (c : Ctrl) :
    RestoreOutcome :=
  match pGet v with
  | .noneV => ⟨false, c⟩
  | pv =>
    match pyInt pv with
    | .ok n => ⟨false, set c n⟩
    | .error _ => ⟨true, c⟩

/-- `if data.get(KEY) is not None: self.x = float(data[KEY])`. -/
def restoreOptFloat (v : Option PVal) (set : Ctrl → ℚ → Ctrl) (c : Ctrl) :
    RestoreOutcome :=
  match pGet v with
  | .noneV => ⟨false, c⟩
  | pv =>
    match pyFloat pv with
    | .ok q => ⟨false, set c q⟩
    | .error _ => ⟨true, c⟩

/-- `restore_state`, statement for statement. `today` is the value of
    `date.today()` in the `except` branch of the `today_date` restore. A
    truthy non-list `session_history` value is modelled as raising, which is
    what the subsequent `_calculate_averages` iteration does on it. -/
def restore_state (today : ℤ) (data : PRecord) (c : Ctrl) : RestoreOutcome :=
  if c.state_restored then ⟨false, c⟩
  else
    (restoreIntD data.sessions_total
        (fun c n => { c with sessions_total := n }) c).andThen fun c =>
    (restoreIntD data.sessions_today
        (fun c n => { c with sessions_today := n }) c).andThen fun c =>
    (restoreFloatD data.energy_today_kwh
        (fun c q => { c with energy_today_kwh := q }) c).andThen fun c =>
    (restoreFloatD data.energy_total_kwh
        (fun c q => { c with energy_total_kwh := q }) c).andThen fun c =>
    (restoreOptInt data.last_session_duration_s
        (fun c n => { c with last_session_duration_s := some n }) c).andThen fun c =>
    (restoreOptFloat data.last_session_energy_kwh
        (fun c q => { c with last_session_energy_kwh := some q }) c).andThen fun c =>
    (restoreOptFloat data.last_session_peak_power_w
        (fun c q => { c with last_session_peak_power_w := some q }) c).andThen fun c =>
    -- today_date: truthy check, then fromisoformat with ValueError/TypeError
    -- caught and defaulted to date.today()
    (let c :=
      if (pGet data.today_date).truthy then
        match pGet data.today_date with
        | .dateV d => { c with today_date := d }
        | _ => { c with today_date := today }
      else c
    RestoreOutcome.mk false c).andThen fun c =>
    -- session history: truthy check, slice to capacity, recompute averages
    (if (pGet data.session_history).truthy then
      match pGet data.session_history with
      | .listV l =>
        RestoreOutcome.mk false (Ctrl.calculate_averages
          { c with session_history := l.take SESSION_HISTORY_SIZE })
      | _ => RestoreOutcome.mk true c
    else RestoreOutcome.mk false c).andThen fun c =>
    (restoreOptFloat data.avg_session_duration_s
        (fun c q => { c with avg_session_duration_s := some q }) c).andThen fun c =>
    (restoreOptFloat data.avg_session_energy_kwh
        (fun c q => { c with avg_session_energy_kwh := some q }) c).andThen fun c =>
    -- open-session block, guarded by truthiness of session_active
    (if (pGet data.session_active).truthy then
      (let c :=
        if (pGet data.session_start_time).truthy then
          match pGet data.session_start_time with
          | .dtV t => { c with session_start_time := some t }
          | _ => { c with session_start_time := none }
        else c
      RestoreOutcome.mk false c).andThen fun c =>
      (restoreOptFloat data.session_start_energy
          (fun c q => { c with session_start_energy := some q }) c).andThen fun c =>
      restoreOptFloat data.session_peak_power
          (fun c q => { c with session_peak_power := q }) c
    else ⟨false, c⟩).andThen fun c =>
    ⟨false, { c with state_restored := true }⟩

/-- Wrap an optional rational as the stored value. -/
def optRat : Option ℚ → PVal
  | some q => .ratV q
  | none => .noneV

/-- Wrap an optional integer as the stored value. -/
def optInt : Option ℤ → PVal
  | some n => .intV n
  | none => .noneV

/-- `get_persistence_data`: the dump writes every key; the two energy
    counters are rounded to 3 decimals on the way out. -/
def get_persistence_data (c : Ctrl) : PRecord where
  sessions_total := some (.intV c.sessions_total)
  sessions_today := some (.intV c.sessions_today)
  energy_today_kwh := some (.ratV (roundTo 3 c.energy_today_kwh))
  energy_total_kwh := some (.ratV (roundTo 3 c.energy_total_kwh))
  last_session_duration_s := some (optInt c.last_session_duration_s)
  last_session_energy_kwh := some (optRat c.last_session_energy_kwh)
  last_session_peak_power_w := some (optRat c.last_session_peak_power_w)
  today_date := some (.dateV c.today_date)
  session_active := some (.boolV (c.state ≠ .off))
  session_start_time := some (match c.session_start_time with
    | some t => .dtV t
    | none => .noneV)
  session_start_energy := some (optRat c.session_start_energy)
  session_peak_power := some (.ratV c.session_peak_power)
  session_history := some (.listV c.session_history)
  avg_session_duration_s := some (optRat c.avg_session_duration_s)
  avg_session_energy_kwh := some (optRat c.avg_session_energy_kwh)

/-- A freshly constructed controller (`__init__`): the configuration is
    given, every mutable field starts at the constructor's initial value,
    `today_date` at `date.today()`. -/
def initCtrl (mode : Mode) (active_th standby_th on_d off_d as_d grace min_d
    smooth : ℚ) (auto_en : Bool) (auto_min : ℚ) (today : ℤ) : Ctrl where
  mode := mode
  active_threshold_w := active_th
  standby_threshold_w := standby_th
  on_delay_s := on_d
  off_delay_s := off_d
  active_standby_delay_s := as_d
  session_end_grace_s := grace
  min_duration_s := min_d
  power_smoothing_s := smooth
  auto_off_enabled := auto_en
  auto_off_minutes := auto_min
  schedule_blocked := false
  power_readings := []
  state := .off
  session_start_time := none
  session_start_energy := none
  current_energy := none
  current_power := 0
  power_available := true
  energy_available := true
  session_peak_power := 0
  pending_on_timer := none
  pending_target_state := none
  pending_off_timer := none
  pending_session_end := false
  auto_off_timer := none
  auto_off_at := none
  scheduled_count := 0
  sessions_total := 0
  sessions_today := 0
  energy_today_kwh := 0
  energy_total_kwh := 0
  last_session_duration_s := none
  last_session_energy_kwh := none
  last_session_peak_power_w := none
  today_date := today
  state_restored := false
  session_history := []
  avg_session_duration_s := none
  avg_session_energy_kwh := none

/-!
## Reset operations

`button.py` (`ResetAllCountersButton.async_press`,
`ResetTodayCountersButton.async_press`) and `config_flow.py`
(`OptionsFlowHandler.async_step_reset`) invoke
`controller.reset_all_counters()` and `controller.reset_today_counters()`.
Attribute lookup on the controller resolves against the methods defined in
the `AdvancedSwitchController` class body; a miss raises `AttributeError`. -/

/-- Every method and property defined in the `AdvancedSwitchController`
    class body of `__init__.py`, in source order. -/
def controllerMethods : List String :=
  ["__init__", "_parse_time", "_get_source_device_id",
   "get_source_device_identifiers", "source_device_id", "device_name",
   "mode", "state", "switch_entity", "sessions_total", "sessions_today",
   "energy_today_kwh", "energy_total_kwh", "last_session_duration_s",
   "last_session_energy_kwh", "last_session_peak_power_w", "current_power",
   "smoothed_power", "_calculate_smoothed_power", "_add_power_reading",
   "session_peak_power", "current_session_duration_s",
   "current_session_energy_kwh", "session_history", "avg_session_duration_s",
   "avg_session_energy_kwh", "schedule_enabled", "schedule_blocked",
   "schedule_start", "schedule_end", "schedule_days", "schedule_turned_off",
   "auto_off_enabled", "auto_off_minutes", "auto_off_at",
   "_is_within_schedule", "_enforce_schedule", "register_entity_listener",
   "unregister_entity_listener", "restore_state", "get_persistence_data",
   "async_start", "async_stop", "_on_state_changed", "_handle_power_change",
   "_handle_simple_mode", "_handle_standby_mode", "_start_on_timer",
   "_cancel_on_timer", "_start_off_timer", "_cancel_off_timer",
   "_start_auto_off_timer", "_cancel_auto_off_timer", "_auto_turn_off",
   "_transition_to", "_start_session", "_end_session", "_calculate_averages",
   "_reset_session", "_check_day_reset", "_notify_entities",
   "async_can_turn_on"]

/-- A Python method call through attribute lookup: raises `AttributeError`
    when the class defines no such method. No method named
    `reset_all_counters` or `reset_today_counters` exists in the class body,
    so no semantics can be given for a hit on those names beyond the lookup
    itself; a successful lookup is returned abstractly. -/
def callControllerMethod (name : String) (c : Ctrl) : Except String Ctrl :=
  if controllerMethods.contains name then .ok c
  else .error ("AttributeError: " ++ name)

/-- `ResetAllCountersButton.async_press`: `self._ctrl.reset_all_counters()`. -/
def pressResetAllCounters (c : Ctrl) : Except String Ctrl :=
  callControllerMethod "reset_all_counters" c

/-- `ResetTodayCountersButton.async_press`: `self._ctrl.reset_today_counters()`. -/
def pressResetTodayCounters (c : Ctrl) : Except String Ctrl :=
  callControllerMethod "reset_today_counters" c

/-!
## Example controllers used in concrete statements
-/

/-- A freshly constructed simple-mode controller with the defaults of
    `const.py` (threshold 50 W, delays 3 s / 5 s, min duration 10 s). -/
def cSimple0 : Ctrl := initCtrl .simple 50 0 3 5 3 5 10 0 false 60 0

/-- A freshly constructed standby-mode controller: thresholds 5 W / 50 W,
    delays 3 s / 5 s / 30 s, grace 120 s, min duration 60 s. -/
def cStandby0 : Ctrl := initCtrl .standby 50 5 3 5 30 120 60 0 false 60 0

/-!
## Theorems
-/

/-- **C2.** Ending an open session whose wall-clock duration is strictly
below `min_duration_s` discards it: every durable counter, the last-session
fields, the session history and the averages are unchanged, regardless of
the energy delta, and the activity state becomes `OFF`. -/
theorem C2_short_session_discarded (c : Ctrl) (now t : ℚ)
    (hopen : c.session_start_time = some t)
    (hshort : now - t < c.min_duration_s) :
    (c.end_session now).sessions_total = c.sessions_total ∧
    (c.end_session now).sessions_today = c.sessions_today ∧
    (c.end_session now).energy_today_kwh = c.energy_today_kwh ∧
    (c.end_session now).energy_total_kwh = c.energy_total_kwh ∧
    (c.end_session now).last_session_duration_s = c.last_session_duration_s ∧
    (c.end_session now).last_session_energy_kwh = c.last_session_energy_kwh ∧
    (c.end_session now).last_session_peak_power_w = c.last_session_peak_power_w ∧
    (c.end_session now).session_history = c.session_history ∧
    (c.end_session now).avg_session_duration_s = c.avg_session_duration_s ∧
    (c.end_session now).avg_session_energy_kwh = c.avg_session_energy_kwh ∧
    (c.end_session now).state = .off := by
  unfold Ctrl.end_session Ctrl.cancel_auto_off_timer Ctrl.reset_session
  by_cases h : c.auto_off_timer.isSome = true <;>
    simp [h, hopen, hshort]

/-- **C2 witness.** A 5-second session against a 10-second minimum is
discarded at a concrete controller. -/
theorem C2_short_session_discarded_witness :
    ({ cSimple0 with
        state := .active,
        session_start_time := some 100,
        current_energy := some 20,
        session_start_energy := some 10,
        sessions_total := 3 }.end_session 105).sessions_total = 3 := by
  have h := C2_short_session_discarded
    { cSimple0 with
      state := .active,
      session_start_time := some 100,
      current_energy := some 20,
      session_start_energy := some 10,
      sessions_total := 3 } 105 100 rfl (by norm_num [cSimple0, initCtrl])
  exact h.1

/-- **C10.** If session end fires while no session start time is recorded,
the controller cancels any pending auto-off timer, sets the state to `OFF`,
and leaves every durable counter, last-session field, history entry and
average unchanged. -/
theorem C10_end_without_open_session (c : Ctrl) (now : ℚ)
    (h : c.session_start_time = none)
    (hlink : c.auto_off_timer = none → c.auto_off_at = none) :
    (c.end_session now).auto_off_timer = none ∧
    (c.end_session now).auto_off_at = none ∧
    (c.end_session now).state = .off ∧
    (c.end_session now).sessions_total = c.sessions_total ∧
    (c.end_session now).sessions_today = c.sessions_today ∧
    (c.end_session now).energy_today_kwh = c.energy_today_kwh ∧
    (c.end_session now).energy_total_kwh = c.energy_total_kwh ∧
    (c.end_session now).last_session_duration_s = c.last_session_duration_s ∧
    (c.end_session now).last_session_energy_kwh = c.last_session_energy_kwh ∧
    (c.end_session now).last_session_peak_power_w = c.last_session_peak_power_w ∧
    (c.end_session now).session_history = c.session_history ∧
    (c.end_session now).avg_session_duration_s = c.avg_session_duration_s ∧
    (c.end_session now).avg_session_energy_kwh = c.avg_session_energy_kwh := by
  unfold Ctrl.end_session Ctrl.cancel_auto_off_timer
  rcases hc : c.auto_off_timer with _ | x
  · have hat := hlink hc
    simp [hc, hat, h]
  · simp [hc, h]

/-- **C10 witness.** An off-timer expiry with no open session at a concrete
controller with a pending auto-off timer. -/
theorem C10_end_without_open_session_witness :
    ({ cSimple0 with
        auto_off_timer := some 4,
        auto_off_at := some 900,
        sessions_total := 2 }.end_session 500).auto_off_timer = none ∧
    ({ cSimple0 with
        auto_off_timer := some 4,
        auto_off_at := some 900,
        sessions_total := 2 }.end_session 500).sessions_total = 2 := by
  have h := C10_end_without_open_session
    { cSimple0 with
      auto_off_timer := some 4,
      auto_off_at := some 900,
      sessions_total := 2 } 500 rfl (by intro hx; simp at hx)
  exact ⟨h.1, h.2.2.2.1⟩

/-- A controller about to transition out of `OFF` with auto-off enabled and
    no auto-off timer pending. -/
def c1ex : Ctrl :=
  { cSimple0 with
    auto_off_enabled := true,
    current_energy := some 7,
    current_power := 80 }

/-- **C1 counterexample.** At a concrete controller with auto-off enabled,
the `OFF → ACTIVE` transition starts a session but does *not* arm the
auto-off timer: the claim that the transition "arms the auto-off timer as
part of that same transition" is false. -/
theorem C1_counterexample :
    c1ex.auto_off_enabled = true ∧
    c1ex.state = .off ∧
    c1ex.auto_off_timer = none ∧
    (c1ex.transition_to 100 .active).state = .active ∧
    (c1ex.transition_to 100 .active).session_start_time = some 100 ∧
    (c1ex.transition_to 100 .active).auto_off_timer = none ∧
    (c1ex.transition_to 100 .active).auto_off_at = none := by
  simp [c1ex, cSimple0, initCtrl, Ctrl.transition_to, Ctrl.start_session]

/-- **C1 amended.** Every `OFF → {STANDBY, ACTIVE}` transition triggers a
session start (recording start time, start energy and the raw power as the
peak), but leaves the auto-off timer exactly as it was; the auto-off timer
is armed only by the physical switch reporting "on" (when auto-off is
enabled and none is already pending). -/
theorem C1_off_transition_starts_session_only (c : Ctrl) (now : ℚ) (s : AState)
    (hoff : c.state = .off) (hs : s = .standby ∨ s = .active) :
    ((c.transition_to now s).session_start_time = some now ∧
     (c.transition_to now s).session_start_energy = c.current_energy ∧
     (c.transition_to now s).session_peak_power = c.current_power ∧
     (c.transition_to now s).state = s ∧
     (c.transition_to now s).auto_off_timer = c.auto_off_timer ∧
     (c.transition_to now s).auto_off_at = c.auto_off_at) ∧
    (c.auto_off_enabled = true → c.auto_off_timer = none →
      (c.on_switch_state_changed now true).auto_off_timer = some c.scheduled_count ∧
      (c.on_switch_state_changed now true).auto_off_at =
        some (now + c.auto_off_minutes * 60)) := by
  constructor
  · have hne : ¬ s = c.state := by rcases hs with h | h <;> simp [h, hoff]
    have hsoff : ¬ s = AState.off := by rcases hs with h | h <;> simp [h]
    simp [Ctrl.transition_to, Ctrl.start_session, hne, hoff, hs, hsoff]
  · intro hen htimer
    simp [Ctrl.on_switch_state_changed, Ctrl.start_auto_off_timer, hen, htimer]

/-- **C1 amended witness.** The amended statement at the concrete controller
of the counterexample: the transition starts the session without touching
the auto-off timer, and a physical switch-on report arms it. -/
theorem C1_off_transition_starts_session_only_witness :
    (c1ex.transition_to 100 .active).session_start_time = some 100 ∧
    (c1ex.transition_to 100 .active).auto_off_timer = none ∧
    (c1ex.on_switch_state_changed 100 true).auto_off_timer = some 0 := by
  have h := C1_off_transition_starts_session_only c1ex 100 .active rfl (Or.inr rfl)
  refine ⟨h.1.1, ?_, ?_⟩
  · have := h.1.2.2.2.2.1
    simpa [c1ex, cSimple0, initCtrl] using this
  · have := (h.2 rfl rfl).1
    simpa [c1ex, cSimple0, initCtrl] using this

/-- **C3.** Pressing either reset button (or submitting the options-flow
reset step) calls `reset_all_counters` / `reset_today_counters` on the
controller, but `AdvancedSwitchController` defines no method of either
name, so the call raises `AttributeError` instead of resetting anything. -/
theorem C3_reset_methods_missing :
    pressResetAllCounters cSimple0 =
      .error "AttributeError: reset_all_counters" ∧
    pressResetTodayCounters cSimple0 =
      .error "AttributeError: reset_today_counters" ∧
    controllerMethods.contains "reset_all_counters" = false ∧
    controllerMethods.contains "reset_today_counters" = false := by
  refine ⟨?_, ?_, ?_, ?_⟩ <;> rfl

/-- **C7.** Timer start/cancel idempotence, per kind: cancelling with
nothing pending is a no-op (all three kinds); starting the "on" timer with
the same pending target is a no-op, so two starts schedule exactly one
expiry; starting it with a different target cancels and replaces the
pending one (scheduling a fresh callback); starting the off/grace timer
while one is pending never restarts or extends it. -/
theorem C7_timer_idempotence (c : Ctrl) (t t' : AState) (g : Bool) :
    (c.pending_on_timer = none → c.cancel_on_timer = c) ∧
    (c.pending_off_timer = none → c.cancel_off_timer = c) ∧
    (c.auto_off_timer = none → c.cancel_auto_off_timer = c) ∧
    (∀ x, c.pending_on_timer = some x → c.pending_target_state = some t →
      c.start_on_timer t = c) ∧
    (c.pending_on_timer = none →
      ((c.start_on_timer t).start_on_timer t = c.start_on_timer t ∧
       (c.start_on_timer t).scheduled_count = c.scheduled_count + 1 ∧
       (c.start_on_timer t).pending_target_state = some t)) ∧
    (∀ x, c.pending_on_timer = some x → c.pending_target_state = some t' →
      t' ≠ t →
      ((c.start_on_timer t).pending_target_state = some t ∧
       (c.start_on_timer t).pending_on_timer =
         some (c.scheduled_count, Ctrl.on_timer_delay c.cancel_on_timer t) ∧
       (c.start_on_timer t).scheduled_count = c.scheduled_count + 1)) ∧
    (∀ y, c.pending_off_timer = some y → c.start_off_timer g = c) := by
  refine ⟨?_, ?_, ?_, ?_, ?_, ?_, ?_⟩
  · intro h; simp [Ctrl.cancel_on_timer, h]
  · intro h; simp [Ctrl.cancel_off_timer, h]
  · intro h; simp [Ctrl.cancel_auto_off_timer, h]
  · intro x hx ht; simp [Ctrl.start_on_timer, hx, ht]
  · intro h
    refine ⟨?_, ?_, ?_⟩ <;>
      simp [Ctrl.start_on_timer, Ctrl.cancel_on_timer, h]
  · intro x hx ht hne
    refine ⟨?_, ?_, ?_⟩ <;>
      simp [Ctrl.start_on_timer, Ctrl.cancel_on_timer, hx, ht, hne]
  · intro y hy; simp [Ctrl.start_off_timer, hy]

/-- **C7 witness.** The conjuncts at concrete controllers: an idle
controller (nothing pending) and one with a pending `ACTIVE`-targeted "on"
timer and a pending off timer. -/
theorem C7_timer_idempotence_witness :
    cSimple0.cancel_on_timer = cSimple0 ∧
    cSimple0.cancel_off_timer = cSimple0 ∧
    cSimple0.cancel_auto_off_timer = cSimple0 ∧
    ((cSimple0.start_on_timer .active).start_on_timer .active =
      cSimple0.start_on_timer .active ∧
     (cSimple0.start_on_timer .active).scheduled_count = 1) ∧
    ({ cStandby0 with
        pending_on_timer := some (0, 3),
        pending_target_state := some .active,
        scheduled_count := 1 }.start_on_timer .active =
      { cStandby0 with
        pending_on_timer := some (0, 3),
        pending_target_state := some .active,
        scheduled_count := 1 }) ∧
    ({ cStandby0 with
        pending_off_timer := some (0, 120),
        pending_session_end := true,
        scheduled_count := 1 }.start_off_timer true =
      { cStandby0 with
        pending_off_timer := some (0, 120),
        pending_session_end := true,
        scheduled_count := 1 }) := by
  have hidle := C7_timer_idempotence cSimple0 .active .standby true
  have hpend := C7_timer_idempotence
    { cStandby0 with
      pending_on_timer := some (0, 3),
      pending_target_state := some .active,
      scheduled_count := 1 } .active .standby true
  have hoff := C7_timer_idempotence
    { cStandby0 with
      pending_off_timer := some (0, 120),
      pending_session_end := true,
      scheduled_count := 1 } .active .standby true
  refine ⟨hidle.1 rfl, hidle.2.1 rfl, hidle.2.2.1 rfl, ?_, ?_, ?_⟩
  · have h := hidle.2.2.2.2.1 rfl
    have hsc : cSimple0.scheduled_count = 0 := rfl
    exact ⟨h.1, by rw [h.2.1, hsc]⟩
  · exact hpend.2.2.2.1 (0, 3) rfl rfl
  · exact hoff.2.2.2.2.2.2 (0, 120) rfl

/-- A simple-mode controller mid-session on day 0 with a pending off/grace
    timer, 5 sessions counted today, about to see its off timer expire
    after the wall-clock date has advanced to day 1 (time 86500 s). -/
def c4ex : Ctrl :=
  { cSimple0 with
    state := .active,
    sessions_today := 5,
    sessions_total := 7,
    today_date := 0,
    session_start_time := some 0,
    pending_off_timer := some (0, 5),
    pending_session_end := true }

/-- **C4 counterexample.** Processing an off-timer-expiry event after the
date has advanced to day 1 commits the session without any day rollover:
`sessions_today` goes from 5 to 6 (the claim demands a reset to 0 before
the event's effect, i.e. a result of 1) and `today_date` is still day 0.
The timer-expiry path (`_end_session`) never invokes `_check_day_reset`. -/
theorem C4_counterexample :
    c4ex.sessions_today = 5 ∧
    c4ex.today_date = 0 ∧
    (step (.off_timer_expiry 86500) c4ex).sessions_today = 6 ∧
    (step (.off_timer_expiry 86500) c4ex).sessions_today ≠ 1 ∧
    (step (.off_timer_expiry 86500) c4ex).today_date = 0 := by
  have hstep : step (.off_timer_expiry 86500) c4ex =
      Ctrl.end_session 86500
        { c4ex with pending_off_timer := none, pending_session_end := false } := by
    rfl
  refine ⟨rfl, rfl, ?_, ?_, ?_⟩ <;>
    rw [hstep] <;>
    simp [Ctrl.end_session, Ctrl.cancel_auto_off_timer, Ctrl.reset_session,
      Ctrl.calculate_averages, SESSION_HISTORY_SIZE, c4ex, cSimple0, initCtrl] <;>
    norm_num

/-- **C4 amended.** The day-rollover check zeroes `sessions_today` and
`energy_today_kwh` and advances `today_date` while leaving `sessions_total`
unchanged, and it is idempotent within the same day; but it runs only in
the power-sample path (`_handle_power_change` applies it before the mode
handler) — sessions committed by timer expiry or schedule enforcement
update today's counters without any prior rollover check. -/
theorem C4_day_rollover_power_events_only (c : Ctrl) (today : ℤ)
    (now p : ℚ) (i : Bool) :
    (c.today_date ≠ today →
      ((c.check_day_reset today).sessions_today = 0 ∧
       (c.check_day_reset today).energy_today_kwh = 0 ∧
       (c.check_day_reset today).today_date = today ∧
       (c.check_day_reset today).sessions_total = c.sessions_total)) ∧
    (c.today_date = today → c.check_day_reset today = c) ∧
    (c.schedule_blocked = false → c.mode = .simple →
      c.handle_power_change now today p i =
        (c.check_day_reset today).handle_simple_mode now p i) ∧
    (c.schedule_blocked = false → c.mode = .standby →
      c.handle_power_change now today p i =
        (c.check_day_reset today).handle_standby_mode now p i) := by
  have hmode : (c.check_day_reset today).mode = c.mode := by
    unfold Ctrl.check_day_reset; split <;> rfl
  refine ⟨?_, ?_, ?_, ?_⟩
  · intro h; simp [Ctrl.check_day_reset, h]
  · intro h; simp [Ctrl.check_day_reset, h]
  · intro hb hm
    simp [Ctrl.handle_power_change, hb, hmode, hm]
  · intro hb hm
    simp [Ctrl.handle_power_change, hb, hmode, hm]

/-- **C4 amended witness.** The rollover at a concrete controller on day
boundary, its same-day idempotence, and the power-path dispatch. -/
theorem C4_day_rollover_power_events_only_witness :
    (({ cSimple0 with
        sessions_today := 5,
        sessions_total := 7,
        energy_today_kwh := 2 }.check_day_reset 1).sessions_today = 0 ∧
     ({ cSimple0 with
        sessions_today := 5,
        sessions_total := 7,
        energy_today_kwh := 2 }.check_day_reset 1).sessions_total = 7) ∧
    { cSimple0 with sessions_today := 5 }.check_day_reset 0 =
      { cSimple0 with sessions_today := 5 } ∧
    cSimple0.handle_power_change 100 0 30 false =
      (cSimple0.check_day_reset 0).handle_simple_mode 100 30 false := by
  have h1 := C4_day_rollover_power_events_only
    { cSimple0 with
      sessions_today := 5,
      sessions_total := 7,
      energy_today_kwh := 2 } 1 100 30 false
  have h2 := C4_day_rollover_power_events_only
    { cSimple0 with sessions_today := 5 } 0 100 30 false
  have h3 := C4_day_rollover_power_events_only cSimple0 0 100 30 false
  refine ⟨?_, ?_, ?_⟩
  · have := h1.1 (by simp [cSimple0, initCtrl])
    exact ⟨this.1, this.2.2.2⟩
  · exact h2.2.1 rfl
  · exact h3.2.2.1 rfl rfl

/-- Evicting stale readings twice with the same cutoff equals evicting
    once: the loop stops at the first fresh reading. -/
theorem evictOld_idem (cutoff : ℚ) (l : List (ℚ × ℚ)) :
    evictOld cutoff (evictOld cutoff l) = evictOld cutoff l := by
  induction l with
  | nil => rfl
  | cons r rest ih =>
    by_cases h : r.1 < cutoff
    · simp [evictOld, h, ih]
    · simp [evictOld, h]

/-- A buffer ending in a reading at or after the cutoff never evicts to
    empty. -/
theorem evictOld_append_ne_nil (cutoff t p : ℚ) (l : List (ℚ × ℚ))
    (h : ¬ t < cutoff) : evictOld cutoff (l ++ [(t, p)]) ≠ [] := by
  induction l with
  | nil => simp [evictOld, h]
  | cons r rest ih =>
    by_cases hr : r.1 < cutoff
    · simpa [evictOld, hr] using ih
    · simp [evictOld, hr]

/-- `pre_sample` only updates the availability flag, the raw power, the
    smoothing buffer and possibly the session peak. -/
theorem pre_sample_fields (c : Ctrl) (now raw : ℚ) :
    (c.pre_sample now raw).power_readings =
      evictOld (now - c.power_smoothing_s) (c.power_readings ++ [(now, raw)]) ∧
    (c.pre_sample now raw).power_smoothing_s = c.power_smoothing_s ∧
    (c.pre_sample now raw).state = c.state ∧
    (c.pre_sample now raw).pending_on_timer = c.pending_on_timer ∧
    (c.pre_sample now raw).pending_target_state = c.pending_target_state ∧
    (c.pre_sample now raw).session_start_time = c.session_start_time ∧
    (c.pre_sample now raw).pending_session_end = c.pending_session_end ∧
    (c.pre_sample now raw).mode = c.mode ∧
    (c.pre_sample now raw).active_threshold_w = c.active_threshold_w ∧
    (c.pre_sample now raw).standby_threshold_w = c.standby_threshold_w ∧
    (c.pre_sample now raw).schedule_blocked = c.schedule_blocked ∧
    (c.pre_sample now raw).today_date = c.today_date := by
  simp only [Ctrl.pre_sample, Ctrl.add_power_reading]
  split <;> simp

/-- The mutation performed by `_calculate_smoothed_power` only evicts stale
    readings. -/
theorem calculate_smoothed_power_fields (c : Ctrl) (now : ℚ) :
    ((c.calculate_smoothed_power now).1).state = c.state ∧
    ((c.calculate_smoothed_power now).1).pending_on_timer = c.pending_on_timer ∧
    ((c.calculate_smoothed_power now).1).pending_target_state =
      c.pending_target_state ∧
    ((c.calculate_smoothed_power now).1).session_start_time =
      c.session_start_time ∧
    ((c.calculate_smoothed_power now).1).pending_session_end =
      c.pending_session_end ∧
    ((c.calculate_smoothed_power now).1).mode = c.mode ∧
    ((c.calculate_smoothed_power now).1).active_threshold_w =
      c.active_threshold_w ∧
    ((c.calculate_smoothed_power now).1).standby_threshold_w =
      c.standby_threshold_w ∧
    ((c.calculate_smoothed_power now).1).schedule_blocked =
      c.schedule_blocked ∧
    ((c.calculate_smoothed_power now).1).today_date = c.today_date := by
  by_cases h : c.power_readings = []
  · simp [Ctrl.calculate_smoothed_power, h]
  · by_cases h2 : evictOld (now - c.power_smoothing_s) c.power_readings = [] <;>
      simp [Ctrl.calculate_smoothed_power, h, h2]

/-- `_check_day_reset` only touches the daily counters and the stored
    date. -/
theorem check_day_reset_fields (c : Ctrl) (today : ℤ) :
    (c.check_day_reset today).state = c.state ∧
    (c.check_day_reset today).pending_on_timer = c.pending_on_timer ∧
    (c.check_day_reset today).pending_target_state = c.pending_target_state ∧
    (c.check_day_reset today).session_start_time = c.session_start_time ∧
    (c.check_day_reset today).pending_session_end = c.pending_session_end ∧
    (c.check_day_reset today).mode = c.mode ∧
    (c.check_day_reset today).active_threshold_w = c.active_threshold_w ∧
    (c.check_day_reset today).standby_threshold_w = c.standby_threshold_w ∧
    (c.check_day_reset today).sessions_total = c.sessions_total := by
  unfold Ctrl.check_day_reset
  split <;> simp

/-- A simple-mode controller with two samples already in the 60-second
    smoothing window at time 100. -/
def c5ex : Ctrl :=
  { cSimple0 with
    power_readings := [(100, 1), (100, 2)],
    power_smoothing_s := 60 }

/-- For a nonnegative smoothing window, the window after a sample is
    nonempty and the value handed to the state machine is the 2-decimal
    rounding of the window mean. -/
theorem smoothed_input_eq_rounded_mean (c : Ctrl) (now raw : ℚ)
    (hs : 0 ≤ c.power_smoothing_s) :
    (c.pre_sample now raw).power_readings ≠ [] ∧
    Ctrl.smoothed_input now raw c =
      roundTo 2
        ((((c.pre_sample now raw).power_readings.map (fun r => r.2)).sum) /
          ((c.pre_sample now raw).power_readings.length)) := by
  obtain ⟨hre, hsm, -⟩ := pre_sample_fields c now raw
  have hne : (c.pre_sample now raw).power_readings ≠ [] := by
    rw [hre]
    exact evictOld_append_ne_nil _ _ _ _ (by linarith)
  have hevict : evictOld (now - (c.pre_sample now raw).power_smoothing_s)
      (c.pre_sample now raw).power_readings =
      (c.pre_sample now raw).power_readings := by
    rw [hsm, hre]
    exact evictOld_idem _ _
  refine ⟨hne, ?_⟩
  unfold Ctrl.smoothed_input Ctrl.calculate_smoothed_power
  simp only [hevict, if_neg hne]

/-- **C5 counterexample.** With window samples 1 W, 2 W, 2 W the exact mean
is 5/3 W, but the value fed to the state machine is the internally rounded
167/100 W: rounding to 2 decimals happens inside
`_calculate_smoothed_power`, not only at the presentation boundary. -/
theorem C5_counterexample :
    Ctrl.smoothed_input 100 2 c5ex = 167 / 100 ∧
    (((c5ex.pre_sample 100 2).power_readings.map (fun r => r.2)).sum /
      ((c5ex.pre_sample 100 2).power_readings.length) : ℚ) = 5 / 3 ∧
    (167 / 100 : ℚ) ≠ 5 / 3 := by
  have hread : (c5ex.pre_sample 100 2).power_readings =
      [(100, 1), (100, 2), (100, 2)] := by
    rw [(pre_sample_fields c5ex 100 2).1]
    norm_num [c5ex, cSimple0, initCtrl, evictOld]
  have hmean : (((c5ex.pre_sample 100 2).power_readings.map
      (fun r => r.2)).sum /
      ((c5ex.pre_sample 100 2).power_readings.length) : ℚ) = 5 / 3 := by
    rw [hread]; norm_num
  have h := smoothed_input_eq_rounded_mean c5ex 100 2
    (by norm_num [c5ex, cSimple0, initCtrl])
  refine ⟨?_, hmean, by norm_num⟩
  rw [h.2, hmean]
  norm_num [roundTo, round_eq]

/-- **C5 amended.** For a nonnegative smoothing window the value fed to the
state machine on a power sample is the unweighted arithmetic mean of the
in-window samples rounded to 2 decimal places inside the smoother (the
window is never empty, since the new sample itself is in range); the exact
mean reaches the state machine only when it happens to equal its own
rounding. -/
theorem C5_smoothed_is_rounded_mean (c : Ctrl) (now raw : ℚ)
    (hs : 0 ≤ c.power_smoothing_s) :
    (c.pre_sample now raw).power_readings ≠ [] ∧
    Ctrl.smoothed_input now raw c =
      roundTo 2
        ((((c.pre_sample now raw).power_readings.map (fun r => r.2)).sum) /
          ((c.pre_sample now raw).power_readings.length)) :=
  smoothed_input_eq_rounded_mean c now raw hs

/-- **C5 amended witness.** The amended statement at the concrete window of
the counterexample: the fed value is the rounded mean 167/100. -/
theorem C5_smoothed_is_rounded_mean_witness :
    Ctrl.smoothed_input 100 2 c5ex =
      roundTo 2
        ((((c5ex.pre_sample 100 2).power_readings.map (fun r => r.2)).sum) /
          ((c5ex.pre_sample 100 2).power_readings.length)) := by
  exact (C5_smoothed_is_rounded_mean c5ex 100 2
    (by norm_num [c5ex, cSimple0, initCtrl])).2

/-- The smoothed-power level at which the `OFF` branch of the mode handler
    starts an "on" timer (and hence can open a session): the active
    threshold in simple mode, the standby threshold in standby mode. -/
def open_threshold (c : Ctrl) : ℚ :=
  match c.mode with
  | .simple => c.active_threshold_w
  | .standby => c.standby_threshold_w

/-- The controller is `OFF` with no pending "on" timer and no open session,
    and its thresholds are ordered as the configuration requires. -/
def OffIdle (c : Ctrl) : Prop :=
  c.state = .off ∧ c.pending_on_timer = none ∧
  c.pending_target_state = none ∧ c.session_start_time = none ∧
  c.standby_threshold_w ≤ c.active_threshold_w

/-- Along the event sequence, every power sample's smoothed input (as
    computed at the state it arrives in) stays strictly below the
    session-opening threshold. -/
def BelowRun (c : Ctrl) : List Event → Prop
  | [] => True
  | e :: es =>
    (match e with
     | .power_sample now _ raw =>
       Ctrl.smoothed_input now raw c < open_threshold c
     | _ => True) ∧ BelowRun (step e c) es

/-- One event preserves `OffIdle` when any power sample it carries has a
    smoothed input below the session-opening threshold. -/
theorem step_preserves_off_idle (c : Ctrl) (e : Event) (hI : OffIdle c)
    (hb : ∀ now today raw, e = .power_sample now today raw →
      Ctrl.smoothed_input now raw c < open_threshold c) :
    OffIdle (step e c) := by
  obtain ⟨hst, hon, htg, hss, hth⟩ := hI
  cases e with
  | on_timer_expiry now =>
    simpa [step, hon] using ⟨hst, hon, htg, hss, hth⟩
  | off_timer_expiry now =>
    rcases hoff : c.pending_off_timer with _ | x
    · simpa [step, hoff] using ⟨hst, hon, htg, hss, hth⟩
    · have hstep : step (.off_timer_expiry now) c =
          Ctrl.end_session now
            { c with pending_off_timer := none, pending_session_end := false } := by
        simp [step, hoff]
      rw [hstep]
      unfold Ctrl.end_session Ctrl.cancel_auto_off_timer
      rcases hao : c.auto_off_timer with _ | y <;>
        simp [OffIdle, hao, hss, hon, htg, hth]
  | power_sample now today raw =>
    have hp := hb now today raw rfl
    obtain ⟨-, -, hps, hpon, hptg, hpss, -, hpm, hpa, hpsb, -, -⟩ :=
      pre_sample_fields c now raw
    obtain ⟨hcs, hcon, hctg, hcss, -, hcm, hca, hcsb, hcblk, -⟩ :=
      calculate_smoothed_power_fields (c.pre_sample now raw) now
    have hstep : step (.power_sample now today raw) c =
        Ctrl.handle_power_change now today (Ctrl.smoothed_input now raw c)
          false ((c.pre_sample now raw).calculate_smoothed_power now).1 := rfl
    rw [hstep]
    unfold Ctrl.handle_power_change
    by_cases hbl : (((c.pre_sample now raw).calculate_smoothed_power
        now).1).schedule_blocked = true
    · simp only [hbl, if_true]
      exact ⟨hcs.trans (hps.trans hst), hcon.trans (hpon.trans hon),
        hctg.trans (hptg.trans htg), hcss.trans (hpss.trans hss),
        by rw [hcsb.trans hpsb, hca.trans hpa]; exact hth⟩
    · simp only [hbl, if_false, Bool.false_eq_true]
      obtain ⟨hds, hdon, hdtg, hdss, -, hdm, hda, hdsb, -⟩ :=
        check_day_reset_fields
          ((c.pre_sample now raw).calculate_smoothed_power now).1 today
      have hId : OffIdle ((((c.pre_sample now raw).calculate_smoothed_power
          now).1).check_day_reset today) :=
        ⟨hds.trans (hcs.trans (hps.trans hst)),
         hdon.trans (hcon.trans (hpon.trans hon)),
         hdtg.trans (hctg.trans (hptg.trans htg)),
         hdss.trans (hcss.trans (hpss.trans hss)),
         by rw [hdsb.trans (hcsb.trans hpsb), hda.trans (hca.trans hpa)]
            exact hth⟩
      have hdmode : ((((c.pre_sample now raw).calculate_smoothed_power
          now).1).check_day_reset today).mode = c.mode :=
        hdm.trans (hcm.trans hpm)
      have hdact : ((((c.pre_sample now raw).calculate_smoothed_power
          now).1).check_day_reset today).active_threshold_w =
          c.active_threshold_w := hda.trans (hca.trans hpa)
      have hdstb : ((((c.pre_sample now raw).calculate_smoothed_power
          now).1).check_day_reset today).standby_threshold_w =
          c.standby_threshold_w := hdsb.trans (hcsb.trans hpsb)
      obtain ⟨hds', hdon', hdtg', hdss', hdth'⟩ := hId
      rcases hm : c.mode with _ | _
      · -- simple mode: the smoothed input is below the active threshold
        have hpa' : Ctrl.smoothed_input now raw c < c.active_threshold_w := by
          simpa [open_threshold, hm] using hp
        rw [hdmode, hm]
        simp only [Ctrl.handle_simple_mode, hds']
        rw [if_neg (by rw [hdact]; exact not_le.mpr hpa')]
        simpa [Ctrl.cancel_on_timer, hdon'] using
          ⟨hds', hdon', hdtg', hdss', hdth'⟩
      · -- standby mode: the smoothed input is below the standby threshold
        have hps' : Ctrl.smoothed_input now raw c < c.standby_threshold_w := by
          simpa [open_threshold, hm] using hp
        have hpa' : Ctrl.smoothed_input now raw c < c.active_threshold_w :=
          lt_of_lt_of_le hps' hth
        rw [hdmode, hm]
        simp only [Ctrl.handle_standby_mode, hds']
        rw [if_neg (by rw [hdact]; exact not_le.mpr hpa'),
          if_neg (by rw [hdstb]; exact not_le.mpr hps')]
        simpa [Ctrl.cancel_on_timer, hdon'] using
          ⟨hds', hdon', hdtg', hdss', hdth'⟩

/-- **C6 amended.** From an `OFF` state with nothing pending, as long as
every smoothed power value fed to the state machine stays strictly below
the session-opening threshold of the configured mode (`active_threshold_w`
in simple mode, `standby_threshold_w` in standby mode), no "on" timer is
ever pending, no session is ever opened, and the state never leaves `OFF`. -/
theorem C6_stays_off_below_open_threshold (c : Ctrl) (es : List Event)
    (hI : OffIdle c) (hb : BelowRun c es) :
    OffIdle (run es c) := by
  induction es generalizing c with
  | nil => simpa [run] using hI
  | cons e es ih =>
    obtain ⟨hbe, hbs⟩ := hb
    have hstep : OffIdle (step e c) := by
      refine step_preserves_off_idle c e hI ?_
      intro now today raw he
      rw [he] at hbe
      exact hbe
    have : run (e :: es) c = run es (step e c) := by simp [run]
    rw [this]
    exact ih (step e c) hstep hbs

/-- **C6 amended witness.** A concrete below-threshold run (3 W sample,
then a spurious timer-expiry event) on the standby-mode controller leaves
it `OFF` with no session. -/
theorem C6_stays_off_below_open_threshold_witness :
    (run [.power_sample 100 0 3, .off_timer_expiry 200] cStandby0).state =
      .off ∧
    (run [.power_sample 100 0 3,
      .off_timer_expiry 200] cStandby0).session_start_time = none := by
  have hI : OffIdle cStandby0 := by
    refine ⟨rfl, rfl, rfl, rfl, ?_⟩
    norm_num [cStandby0, initCtrl]
  have hb : BelowRun cStandby0 [.power_sample 100 0 3, .off_timer_expiry 200] := by
    refine ⟨?_, trivial, trivial⟩
    show Ctrl.smoothed_input 100 3 cStandby0 < open_threshold cStandby0
    have h := smoothed_input_eq_rounded_mean cStandby0 100 3
      (by norm_num [cStandby0, initCtrl])
    have hread : (cStandby0.pre_sample 100 3).power_readings = [(100, 3)] := by
      rw [(pre_sample_fields cStandby0 100 3).1]
      norm_num [cStandby0, initCtrl, evictOld]
    rw [h.2, hread]
    norm_num [open_threshold, cStandby0, initCtrl, roundTo, round_eq]
  have h := C6_stays_off_below_open_threshold cStandby0
    [.power_sample 100 0 3, .off_timer_expiry 200] hI hb
  exact ⟨h.1, h.2.2.2.1⟩

/-- **C6 counterexample.** Two concrete runs starting from `OFF` in which
every raw power sample is strictly below `active_threshold_w`, yet a
session opens. Standby mode: a single 30 W sample (below the 50 W active
threshold but in the standby band) arms the "on" timer, whose expiry opens
a `STANDBY` session. Simple mode: a single 49.999 W sample is below the
50 W threshold, but its internally rounded window mean is 50.00 W, arming
the "on" timer, whose expiry opens an `ACTIVE` session. -/
theorem C6_counterexample :
    ((30 : ℚ) < 50 ∧
     (run [.power_sample 100 0 30, .on_timer_expiry 103] cStandby0).state =
       .standby ∧
     (run [.power_sample 100 0 30,
       .on_timer_expiry 103] cStandby0).session_start_time = some 103) ∧
    ((49999 / 1000 : ℚ) < 50 ∧
     (run [.power_sample 100 0 (49999 / 1000),
       .on_timer_expiry 103] cSimple0).state = .active ∧
     (run [.power_sample 100 0 (49999 / 1000),
       .on_timer_expiry 103] cSimple0).session_start_time = some 103) := by
  refine ⟨⟨by norm_num, ?_, ?_⟩, ⟨by norm_num, ?_, ?_⟩⟩ <;>
    (norm_num [run, step, Ctrl.on_power_sample, Ctrl.pre_sample,
      Ctrl.add_power_reading, Ctrl.calculate_smoothed_power, evictOld,
      Ctrl.handle_power_change, Ctrl.check_day_reset,
      Ctrl.handle_standby_mode, Ctrl.handle_simple_mode,
      Ctrl.start_on_timer, Ctrl.cancel_on_timer, Ctrl.on_timer_delay,
      Ctrl.cancel_off_timer, Ctrl.start_off_timer, Ctrl.transition_to,
      Ctrl.start_session, roundTo, round_eq, cStandby0, cSimple0, initCtrl]) <;>
    rfl

/-!
## Persistence round trip
-/

/-- Restoring a fresh controller from a dumped record. -/
def roundTrip (fresh : Ctrl) (today : ℤ) (c : Ctrl) : RestoreOutcome :=
  restore_state today (get_persistence_data c) fresh

theorem andThen_ok (c : Ctrl) (f : Ctrl → RestoreOutcome) :
    RestoreOutcome.andThen ⟨false, c⟩ f = f c := rfl

theorem pGet_some (v : PVal) : pGet (some v) = v := rfl

theorem restoreIntD_intV (n : ℤ) (set : Ctrl → ℤ → Ctrl) (c : Ctrl) :
    restoreIntD (some (.intV n)) set c = ⟨false, set c n⟩ := rfl

theorem restoreFloatD_ratV (q : ℚ) (set : Ctrl → ℚ → Ctrl) (c : Ctrl) :
    restoreFloatD (some (.ratV q)) set c = ⟨false, set c q⟩ := rfl

theorem restoreOptFloat_ratV (q : ℚ) (set : Ctrl → ℚ → Ctrl) (c : Ctrl) :
    restoreOptFloat (some (.ratV q)) set c = ⟨false, set c q⟩ := rfl

theorem restoreOpt_last_dur (v : Option ℤ) (c : Ctrl) :
    restoreOptInt (some (optInt v))
      (fun c n => { c with last_session_duration_s := some n }) c =
    ⟨false, { c with
      last_session_duration_s := v.or c.last_session_duration_s }⟩ := by
  cases v <;> rfl

theorem restoreOpt_last_energy (v : Option ℚ) (c : Ctrl) :
    restoreOptFloat (some (optRat v))
      (fun c q => { c with last_session_energy_kwh := some q }) c =
    ⟨false, { c with
      last_session_energy_kwh := v.or c.last_session_energy_kwh }⟩ := by
  cases v <;> rfl

theorem restoreOpt_last_peak (v : Option ℚ) (c : Ctrl) :
    restoreOptFloat (some (optRat v))
      (fun c q => { c with last_session_peak_power_w := some q }) c =
    ⟨false, { c with
      last_session_peak_power_w := v.or c.last_session_peak_power_w }⟩ := by
  cases v <;> rfl

theorem restoreOpt_avg_dur (v : Option ℚ) (c : Ctrl) :
    restoreOptFloat (some (optRat v))
      (fun c q => { c with avg_session_duration_s := some q }) c =
    ⟨false, { c with
      avg_session_duration_s := v.or c.avg_session_duration_s }⟩ := by
  cases v <;> rfl

theorem restoreOpt_avg_energy (v : Option ℚ) (c : Ctrl) :
    restoreOptFloat (some (optRat v))
      (fun c q => { c with avg_session_energy_kwh := some q }) c =
    ⟨false, { c with
      avg_session_energy_kwh := v.or c.avg_session_energy_kwh }⟩ := by
  cases v <;> rfl

theorem restoreOpt_start_energy (v : Option ℚ) (c : Ctrl) :
    restoreOptFloat (some (optRat v))
      (fun c q => { c with session_start_energy := some q }) c =
    ⟨false, { c with
      session_start_energy := v.or c.session_start_energy }⟩ := by
  cases v <;> rfl

/-- **C8.** `load(dump())` on a fresh controller reproduces the durable
snapshot with the two energy counters rounded to 3 decimals (the dump
rounds them on the way out) and all other fields identical: session
counters, last-session fields, stored date, history, averages, and — when
a session was open — its start time, start energy and peak. The
hypotheses are the data-model invariants that history is within capacity
and that averages are `None` only when the history is empty. -/
theorem C8_round_trip (mode : Mode) (a b d e f g h i : ℚ) (en : Bool)
    (j : ℚ) (today0 today : ℤ) (c : Ctrl)
    (hlen : c.session_history.length ≤ SESSION_HISTORY_SIZE)
    (havd : c.avg_session_duration_s = none → c.session_history = [])
    (have_ : c.avg_session_energy_kwh = none → c.session_history = []) :
    ∀ r, r = roundTrip (initCtrl mode a b d e f g h i en j today0) today c →
      r.raised = false ∧
      r.ctrl.sessions_total = c.sessions_total ∧
      r.ctrl.sessions_today = c.sessions_today ∧
      r.ctrl.energy_today_kwh = roundTo 3 c.energy_today_kwh ∧
      r.ctrl.energy_total_kwh = roundTo 3 c.energy_total_kwh ∧
      r.ctrl.last_session_duration_s = c.last_session_duration_s ∧
      r.ctrl.last_session_energy_kwh = c.last_session_energy_kwh ∧
      r.ctrl.last_session_peak_power_w = c.last_session_peak_power_w ∧
      r.ctrl.today_date = c.today_date ∧
      r.ctrl.session_history = c.session_history ∧
      r.ctrl.avg_session_duration_s = c.avg_session_duration_s ∧
      r.ctrl.avg_session_energy_kwh = c.avg_session_energy_kwh ∧
      (c.state ≠ .off →
        r.ctrl.session_start_time = c.session_start_time ∧
        r.ctrl.session_start_energy = c.session_start_energy ∧
        r.ctrl.session_peak_power = c.session_peak_power) := by
  intro r hr
  subst hr
  have htake : c.session_history.take SESSION_HISTORY_SIZE =
      c.session_history := List.take_of_length_le hlen
  unfold roundTrip restore_state get_persistence_data
  by_cases hh : c.session_history = [] <;>
  by_cases hso : c.state = AState.off <;>
  rcases hsst : c.session_start_time with _ | sst <;>
  simp only [initCtrl, restoreIntD_intV, restoreFloatD_ratV,
    restoreOpt_last_dur, restoreOpt_last_energy, restoreOpt_last_peak,
    restoreOpt_avg_dur, restoreOpt_avg_energy, restoreOpt_start_energy,
    restoreOptFloat_ratV,
    andThen_ok, pGet_some, PVal.truthy, htake, hh, hso, hsst,
    Ctrl.calculate_averages, ne_eq, ite_true, ite_false, if_true, if_false,
    eq_self_iff_true, decide_eq_true_eq, decide_not, Bool.not_true,
    Bool.not_false, not_false_iff, not_true, Bool.false_eq_true,
    Bool.true_eq_false, if_neg, if_pos, Option.or_none]
  all_goals
    rcases havd2 : c.avg_session_duration_s with _ | avd <;>
    rcases have2 : c.avg_session_energy_kwh with _ | ave <;>
    first
      | exact absurd (havd havd2) hh
      | exact absurd (have_ have2) hh
      | simp_all [Option.or_none]

/-- A standby-mode controller mid-session with populated counters, history
    and averages. -/
def c8ex : Ctrl :=
  { cStandby0 with
    state := .active,
    session_start_time := some 50,
    session_start_energy := some 2,
    session_peak_power := 70,
    sessions_total := 4,
    sessions_today := 2,
    energy_today_kwh := 1 / 2,
    energy_total_kwh := 5,
    last_session_duration_s := some 30,
    last_session_energy_kwh := some (1 / 2),
    last_session_peak_power_w := some 60,
    today_date := 3,
    session_history :=
      [{ start := 0, endT := 30, duration_s := 30, energy_kwh := 1 / 2,
         peak_power_w := 60 }],
    avg_session_duration_s := some 30,
    avg_session_energy_kwh := some (1 / 2) }

/-- **C8 witness.** The round trip at the concrete mid-session controller:
restore succeeds and reproduces the counters and the open session's start
time. -/
theorem C8_round_trip_witness :
    (roundTrip (initCtrl .standby 50 5 3 5 30 120 60 0 false 60 3) 3
      c8ex).raised = false ∧
    (roundTrip (initCtrl .standby 50 5 3 5 30 120 60 0 false 60 3) 3
      c8ex).ctrl.sessions_total = 4 ∧
    (roundTrip (initCtrl .standby 50 5 3 5 30 120 60 0 false 60 3) 3
      c8ex).ctrl.session_start_time = some 50 := by
  obtain ⟨h1, h2, -, -, -, -, -, -, -, -, -, -, hsess⟩ :=
    C8_round_trip .standby 50 5 3 5 30 120 60 0 false 60 3 3 c8ex
      (by norm_num [c8ex, cStandby0, initCtrl, SESSION_HISTORY_SIZE])
      (by intro hx; simp [c8ex, cStandby0, initCtrl] at hx)
      (by intro hx; simp [c8ex, cStandby0, initCtrl] at hx)
      _ rfl
  exact ⟨h1, h2.trans rfl,
    ((hsess (by simp [c8ex, cStandby0, initCtrl])).1).trans rfl⟩

/-- A controller whose daily energy counter holds more precision than the
    3 decimal places the dump keeps. -/
def c8cex : Ctrl := { cSimple0 with energy_today_kwh := 1 / 10000 }

/-- **C8 counterexample.** `load(dump())` does not reproduce
`energy_today_kwh` identically: 0.0001 kWh dumps as `round(·, 3) = 0.0`
and restores as 0, so the claimed identical snapshot fails on the energy
counters. -/
theorem C8_counterexample :
    c8cex.energy_today_kwh = 1 / 10000 ∧
    (roundTrip (initCtrl .simple 50 0 3 5 3 5 10 0 false 60 0) 0
      c8cex).raised = false ∧
    (roundTrip (initCtrl .simple 50 0 3 5 3 5 10 0 false 60 0) 0
      c8cex).ctrl.energy_today_kwh = 0 ∧
    (0 : ℚ) ≠ 1 / 10000 := by
  refine ⟨rfl, ?_, ?_, by norm_num⟩ <;>
    ( unfold roundTrip restore_state get_persistence_data
      norm_num [c8cex, cSimple0, initCtrl, restoreIntD, restoreFloatD,
        restoreOptInt, restoreOptFloat, RestoreOutcome.andThen, pGet, pGetD,
        pyInt, pyFloat, PVal.truthy, optInt, optRat, Ctrl.calculate_averages,
        roundTo, round_eq] )

theorem restoreOptInt_none (set : Ctrl → ℤ → Ctrl) (c : Ctrl) :
    restoreOptInt (some .noneV) set c = ⟨false, c⟩ := rfl

theorem restoreOptFloat_none (set : Ctrl → ℚ → Ctrl) (c : Ctrl) :
    restoreOptFloat (some .noneV) set c = ⟨false, c⟩ := rfl

theorem restoreOptInt_absent (set : Ctrl → ℤ → Ctrl) (c : Ctrl) :
    restoreOptInt none set c = ⟨false, c⟩ := rfl

theorem restoreOptFloat_absent (set : Ctrl → ℚ → Ctrl) (c : Ctrl) :
    restoreOptFloat none set c = ⟨false, c⟩ := rfl

/-- A partially corrupted record: well-formed session counters, a malformed
    (non-numeric string) `energy_today_kwh`, and a well-formed
    `energy_total_kwh`. -/
def c9rec : PRecord :=
  { sessions_total := some (.intV 3),
    sessions_today := some (.intV 1),
    energy_today_kwh := some (.strV "xx"),
    energy_total_kwh := some (.ratV 5) }

/-- **C9 counterexample.** Restoring `c9rec` aborts at the malformed
`energy_today_kwh` (Python `float()` raises): the restore does not fall
back to a default for just that field — it raises, keeps only the fields
restored before it (`sessions_total = 3`), loses the well-formed
`energy_total_kwh = 5` that follows, and never marks the state restored. -/
theorem C9_counterexample :
    (restore_state 0 c9rec
      (initCtrl .simple 50 0 3 5 3 5 10 0 false 60 0)).raised = true ∧
    (restore_state 0 c9rec
      (initCtrl .simple 50 0 3 5 3 5 10 0 false 60 0)).ctrl.sessions_total =
      3 ∧
    (restore_state 0 c9rec
      (initCtrl .simple 50 0 3 5 3 5 10 0 false 60 0)).ctrl.energy_total_kwh =
      0 ∧
    (0 : ℚ) ≠ 5 ∧
    (restore_state 0 c9rec
      (initCtrl .simple 50 0 3 5 3 5 10 0 false 60 0)).ctrl.state_restored =
      false := by
  exact ⟨rfl, rfl, rfl, by norm_num, rfl⟩

/-- **C9 amended.** Absent fields default (counters to 0 via
`data.get(key, 0)`, optional fields left at their fresh defaults), and a
malformed `today_date` or `session_start_time` string falls back
individually (to today / absent) while every other well-formed field of the
record is still restored; but this per-field tolerance covers only the
date/timestamp fields — a malformed numeric field raises and aborts the
restore at that point (see the counterexample). -/
theorem C9_malformed_date_fields_default (mode : Mode)
    (a b d e f g h i : ℚ) (en : Bool) (j : ℚ) (today0 today n m : ℤ)
    (e1 e2 : ℚ) (s s2 : String) (hs : s ≠ "") (hs2 : s2 ≠ "") :
    ∀ r, r = restore_state today
        { sessions_total := some (.intV n),
          sessions_today := some (.intV m),
          energy_today_kwh := some (.ratV e1),
          energy_total_kwh := some (.ratV e2),
          today_date := some (.strV s),
          session_active := some (.boolV true),
          session_start_time := some (.strV s2) }
        (initCtrl mode a b d e f g h i en j today0) →
      r.raised = false ∧
      r.ctrl.sessions_total = n ∧
      r.ctrl.sessions_today = m ∧
      r.ctrl.energy_today_kwh = e1 ∧
      r.ctrl.energy_total_kwh = e2 ∧
      r.ctrl.today_date = today ∧
      r.ctrl.session_start_time = none ∧
      r.ctrl.state_restored = true := by
  intro r hr
  subst hr
  unfold restore_state
  simp only [initCtrl, restoreIntD_intV, restoreFloatD_ratV,
    restoreOptInt_none, restoreOptFloat_none, restoreOptInt_absent,
    restoreOptFloat_absent, andThen_ok, pGet_some, pGet, Option.getD,
    PVal.truthy, hs, hs2, ne_eq, ite_true, ite_false, if_true, if_false,
    eq_self_iff_true, decide_eq_true_eq, decide_not, Bool.not_true,
    Bool.not_false, not_false_iff, not_true, Bool.false_eq_true,
    Bool.true_eq_false]
  simp

/-- **C9 amended witness.** The amended statement at a concrete corrupted
record (`today_date = "garbage"`, `session_start_time = "oops"`): the two
date fields fall back while the numeric fields are restored. -/
theorem C9_malformed_date_fields_default_witness :
    (restore_state 7
      { sessions_total := some (.intV 3),
        sessions_today := some (.intV 1),
        energy_today_kwh := some (.ratV 2),
        energy_total_kwh := some (.ratV 5),
        today_date := some (.strV "garbage"),
        session_active := some (.boolV true),
        session_start_time := some (.strV "oops") }
      (initCtrl .simple 50 0 3 5 3 5 10 0 false 60 0)).ctrl.today_date = 7 ∧
    (restore_state 7
      { sessions_total := some (.intV 3),
        sessions_today := some (.intV 1),
        energy_today_kwh := some (.ratV 2),
        energy_total_kwh := some (.ratV 5),
        today_date := some (.strV "garbage"),
        session_active := some (.boolV true),
        session_start_time := some (.strV "oops") }
      (initCtrl .simple 50 0 3 5 3 5 10 0 false 60 0)).ctrl.energy_total_kwh =
      5 := by
  obtain ⟨-, -, -, -, h5, h6, -, -⟩ :=
    C9_malformed_date_fields_default .simple 50 0 3 5 3 5 10 0 false 60 0 7
      3 1 2 5 "garbage" "oops" (by decide) (by decide) _ rfl
  exact ⟨h6, h5⟩


